import Mathlib

set_option maxRecDepth 100000
set_option maxHeartbeats 2000000

/-!
Verification development for the LoL civil-war team generator
(`generator.py`).  The Python core is shallowly embedded: Python floats
become exact values (`ℚ` for the tabulated arithmetic, `ℝ` once a square
root appears), the special float value `-inf` produced by the tier
adjustment functions is a constructor of `PyF`, and Python exceptions
(`TypeError`, `KeyError`, `ValueError`, ...) become an `Except PyErr`
layer.  Python 3.7+ dicts are insertion-ordered with unique keys; the
position-assignment dicts built by the generator always insert the five
positions in `POSITIONS` order, so they are embedded as association lists
`List (String × Player)`.
-/

/-- Python exceptions that the embedded code can raise. -/
inductive PyErr where
  | typeError
  | keyError
  | indexError
  | nameError
  | zeroDivisionError
  | valueError (msg : String)
deriving DecidableEq, Repr

/-- A Python float value as produced by the scoring arithmetic: an exact
rational, or one of the IEEE special values that the code can produce
(`float(-inf)` from the tier-adjustment fallthrough, and its images under
subtraction and squaring). -/
inductive PyF where
  | fin (q : ℚ)
  | pinf
  | ninf
  | nan
deriving DecidableEq

/-- IEEE addition restricted to the values of `PyF`. -/
def PyF.add : PyF → PyF → PyF
  | .nan, _ => .nan
  | _, .nan => .nan
  | .fin a, .fin b => .fin (a + b)
  | .fin _, .pinf => .pinf
  | .fin _, .ninf => .ninf
  | .pinf, .fin _ => .pinf
  | .ninf, .fin _ => .ninf
  | .pinf, .pinf => .pinf
  | .ninf, .ninf => .ninf
  | .pinf, .ninf => .nan
  | .ninf, .pinf => .nan

/-- IEEE subtraction restricted to the values of `PyF`. -/
def PyF.sub : PyF → PyF → PyF
  | .nan, _ => .nan
  | _, .nan => .nan
  | .fin a, .fin b => .fin (a - b)
  | .fin _, .pinf => .ninf
  | .fin _, .ninf => .pinf
  | .pinf, .fin _ => .pinf
  | .ninf, .fin _ => .ninf
  | .pinf, .pinf => .nan
  | .ninf, .ninf => .nan
  | .pinf, .ninf => .pinf
  | .ninf, .pinf => .ninf

/-- Squaring (`x ** 2`) on `PyF`. -/
def PyF.sq : PyF → PyF
  | .fin a => .fin (a ^ 2)
  | .pinf => .pinf
  | .ninf => .pinf
  | .nan => .nan

/-- Python `sum` over a list of floats (initial accumulator 0). -/
def PyF.sum (l : List PyF) : PyF := l.foldl PyF.add (.fin 0)

/-- Division of a float by a (list-length) integer; raises
`ZeroDivisionError` on a zero denominator, as Python does. -/
def PyF.divNat (x : PyF) (n : ℕ) : Except PyErr PyF :=
  if n = 0 then .error .zeroDivisionError
  else .ok (match x with
    | .fin q => .fin (q / (n : ℚ))
    | .pinf => .pinf
    | .ninf => .ninf
    | .nan => .nan)

/-- A Python float once a square root has been taken: an exact real, or a
special value. -/
inductive PyR where
  | fin (r : ℝ)
  | pinf
  | ninf
  | nan

/-- IEEE addition on `PyR`. -/
def PyR.add : PyR → PyR → PyR
  | .nan, _ => .nan
  | _, .nan => .nan
  | .fin a, .fin b => .fin (a + b)
  | .fin _, .pinf => .pinf
  | .fin _, .ninf => .ninf
  | .pinf, .fin _ => .pinf
  | .ninf, .fin _ => .ninf
  | .pinf, .pinf => .pinf
  | .ninf, .ninf => .ninf
  | .pinf, .ninf => .nan
  | .ninf, .pinf => .nan

/-- IEEE subtraction on `PyR`. -/
def PyR.sub : PyR → PyR → PyR
  | .nan, _ => .nan
  | _, .nan => .nan
  | .fin a, .fin b => .fin (a - b)
  | .fin _, .pinf => .ninf
  | .fin _, .ninf => .pinf
  | .pinf, .fin _ => .pinf
  | .ninf, .fin _ => .ninf
  | .pinf, .pinf => .nan
  | .ninf, .ninf => .nan
  | .pinf, .ninf => .pinf
  | .ninf, .pinf => .ninf

/-- Python `abs` on `PyR`. -/
def PyR.abs : PyR → PyR
  | .fin a => .fin |a|
  | .pinf => .pinf
  | .ninf => .pinf
  | .nan => .nan

/-- IEEE strict comparison on `PyR` (any comparison with `nan` is false). -/
def PyR.lt : PyR → PyR → Prop
  | .fin a, .fin b => a < b
  | .fin _, .pinf => True
  | .ninf, .fin _ => True
  | .ninf, .pinf => True
  | _, _ => False

/-- Inclusion of the square-root-free floats into `PyR`. -/
def PyF.toPyR : PyF → PyR
  | .fin q => .fin (q : ℝ)
  | .pinf => .pinf
  | .ninf => .ninf
  | .nan => .nan

/-- Python `math.sqrt`: raises `ValueError` on negative inputs (including `-inf`),
maps `nan` to `nan` and `+inf` to `+inf`. -/
noncomputable def mathSqrt : PyF → Except PyErr PyR
  | .fin q => if 0 ≤ q then .ok (.fin (Real.sqrt (q : ℝ))) else .error (.valueError "math domain error")
  | .pinf => .ok .pinf
  | .ninf => .error (.valueError "math domain error")
  | .nan => .ok .nan

/-- Python `x ** 0.5` on a nonnegative float is `math.sqrt x`; on a negative base
Python returns a complex number, which lies outside the embedded float
domain and is marked as an error value (never reached: every synergy
argument is a mean of nonnegative rank points). -/
noncomputable def pyPowHalf (q : ℚ) : Except PyErr PyR :=
  if 0 ≤ q then .ok (.fin (Real.sqrt (q : ℝ))) else .error (.valueError "complex result")

/-- Rational division by a list length; `ZeroDivisionError` on length 0. -/
def pyDivQ (s : ℚ) (n : ℕ) : Except PyErr ℚ :=
  if n = 0 then .error .zeroDivisionError else .ok (s / (n : ℚ))

/-- Indexing `l[i]` on a Python list: `IndexError` when out of range. -/
def pyListGet (l : List α) (i : ℕ) : Except PyErr α :=
  match l.get? i with
  | some a => .ok a
  | none => .error .indexError

/-- Indexing `d[k]` on a Python dict (embedded as an association list):
`KeyError` when the key is absent. -/
def pyDictGet (d : List (String × α)) (k : String) : Except PyErr α :=
  match d.lookup k with
  | some v => .ok v
  | none => .error .keyError

/-- Python `str.lower`, written as a character-by-character map so that it
reduces definitionally (servers and ranks in this file are compared after
lowercasing, as the source does). -/
def pyLower (s : String) : String :=
  String.mk (s.data.map Char.toLower)

-- Constants (generator.py lines 13-16)

def POSITIONS : List String := ["top", "jgl", "mid", "bot", "sup"]

def HIGH_SKILL_SERVERS : List String := ["korea", "china"]

/-- The ten ranks of `RANKS` (generator.py line 14), lowest to highest. -/
inductive Rank where
  | iron | bronze | silver | gold | platinum
  | emerald | diamond | master | grandmaster | challenger
deriving DecidableEq, Repr

/-- Table `RANKS_POINT_DICT` (generator.py lines 18-89): the per-rank row of the
static per-rank, per-position point table. -/
def ranksPointDict : Rank → List (String × ℚ)
  | .challenger => [("top", 46), ("jgl", 51), ("mid", 50), ("bot", 44), ("sup", 43)]
  | .grandmaster => [("top", 43), ("jgl", 47), ("mid", 46), ("bot", 40), ("sup", 40)]
  | .master => [("top", 39), ("jgl", 47), ("mid", 46), ("bot", 40), ("sup", 40)]
  | .diamond => [("top", 31), ("jgl", 34), ("mid", 34), ("bot", 28), ("sup", 30)]
  | .emerald => [("top", 28), ("jgl", 31), ("mid", 31), ("bot", 25), ("sup", 27)]
  | .platinum => [("top", 23), ("jgl", 25), ("mid", 24), ("bot", 21), ("sup", 23)]
  | .gold => [("top", 19), ("jgl", 17), ("mid", 16), ("bot", 16), ("sup", 19)]
  | .silver => [("top", 13), ("jgl", 8), ("mid", 10), ("bot", 8), ("sup", 13)]
  | .bronze => [("top", 8), ("jgl", 4), ("mid", 8), ("bot", 7), ("sup", 11)]
  | .iron => [("top", 8), ("jgl", 4), ("mid", 8), ("bot", 7), ("sup", 11)]

-- PositionPreference (generator.py lines 93-130)

structure PositionPreference where
  main_roles : List String
  secondary_roles : List String
  tertiary_roles : List String
deriving DecidableEq, Repr

/-- Validator `PositionPreference.__post_init__` (lines 99-108): raises `ValueError`
when a position occurs twice in the concatenation of the three tiers
(Python compares `len(all)` with `len(set(all))`), or when a listed
position is not one of the five valid positions (first offender reported). -/
def PositionPreference.post_init (pref : PositionPreference) : Except PyErr Unit :=
  let all_positions := pref.main_roles ++ pref.secondary_roles ++ pref.tertiary_roles
  if all_positions.length ≠ all_positions.dedup.length then
    .error (.valueError "A position cannot appear in multiple tiers")
  else
    match all_positions.find? (fun pos => decide (pos ∉ POSITIONS)) with
    | some pos => .error (.valueError ("Invalid position: " ++ pos))
    | none => .ok ()

/-- Method `get_all_positions` (lines 110-112): `list(set(main + secondary +
tertiary))`.  Python set order is unspecified; `dedup` fixes one
duplicate-free enumeration, and only membership in the result is ever
used. -/
def PositionPreference.get_all_positions (pref : PositionPreference) : List String :=
  (pref.main_roles ++ pref.secondary_roles ++ pref.tertiary_roles).dedup

/-- Method `get_position_tier` (lines 114-125): 1, 2, 3, or the sentinel -1. -/
def PositionPreference.get_position_tier (pref : PositionPreference) (position : String) : ℤ :=
  if position ∈ pref.main_roles then 1
  else if position ∈ pref.secondary_roles then 2
  else if position ∈ pref.tertiary_roles then 3
  else -1

-- Player (generator.py lines 134-190)

structure Player where
  name : String
  rank : Rank
  position_preference : PositionPreference
  server : String
  order_capable : Bool
deriving DecidableEq, Repr

/-- The server bonus term shared by both `rank_points` definitions:
`1 if self.server.lower() in HIGH_SKILL_SERVERS else 0`. -/
def Player.server_bonus (p : Player) : ℚ :=
  if pyLower p.server ∈ HIGH_SKILL_SERVERS then 1 else 0

/-- A call `player.rank_points()` with no argument.  The zero-argument
`@property rank_points` (lines 142-148) is immediately shadowed in the
class body by the one-argument method `rank_points(self, assigned_position)`
(lines 150-161) — in Python the later definition of the same name wins —
so every zero-argument call resolves to the method and raises
`TypeError: rank_points() missing 1 required positional argument`. -/
def Player.rank_points_noarg (_p : Player) : Except PyErr ℚ :=
  .error .typeError

/-- The live `rank_points(self, assigned_position)` method (lines 150-161):
the static point-table entry of the first role listed in the tier that
contains the assigned position (0.0 when the position is in no tier),
plus the server bonus. -/
def Player.rank_points (p : Player) (assigned_position : String) : Except PyErr ℚ :=
  let tier := p.position_preference.get_position_tier assigned_position
  if tier = 1 then do
    let role ← pyListGet p.position_preference.main_roles 0
    let weighted_points ← pyDictGet (ranksPointDict p.rank) role
    pure (p.server_bonus + weighted_points)
  else if tier = 2 then do
    let role ← pyListGet p.position_preference.secondary_roles 0
    let weighted_points ← pyDictGet (ranksPointDict p.rank) role
    pure (p.server_bonus + weighted_points)
  else if tier = 3 then do
    let role ← pyListGet p.position_preference.tertiary_roles 0
    let weighted_points ← pyDictGet (ranksPointDict p.rank) role
    pure (p.server_bonus + weighted_points)
  else
    pure (p.server_bonus + 0)

/-- Method `position_penalty` (lines 163-171): +2.5 / -1.5 / -5.0 by tier,
`float(-inf)` when the position is in no tier. -/
def Player.position_penalty (p : Player) (assigned_position : String) : PyF :=
  let tier := p.position_preference.get_position_tier assigned_position
  if tier = 1 then .fin 2.5
  else if tier = 2 then .fin (-1.5)
  else if tier = 3 then .fin (-5.0)
  else .ninf

/-- Method `position_penalty_advanced` (lines 173-181): the one-argument
`rank_points` value scaled by +0.02 / -0.02 / -0.30 by tier,
`float(-inf)` when the position is in no tier. -/
def Player.position_penalty_advanced (p : Player) (assigned_position : String) : Except PyErr PyF :=
  let tier := p.position_preference.get_position_tier assigned_position
  if tier = 1 then do
    let rp ← p.rank_points assigned_position
    pure (.fin (rp * 0.02))
  else if tier = 2 then do
    let rp ← p.rank_points assigned_position
    pure (.fin (rp * (-0.02)))
  else if tier = 3 then do
    let rp ← p.rank_points assigned_position
    pure (.fin (rp * (-0.30)))
  else
    pure .ninf

/-- Property `order_points` (lines 183-185): 0.5 for a shot-caller, else 0. -/
def Player.order_points (p : Player) : ℚ :=
  if p.order_capable then 0.5 else 0

-- Assignment enumerator (generator.py lines 287-315)

/-- A position-assignment dict: insertion-ordered, keys drawn from
`POSITIONS`. -/
abbrev PyDict := List (String × Player)

/-- The body of the permutation check in
`generate_valid_position_assignments`: a permutation of the team is a
valid assignment when, zipping `POSITIONS` against it, every player can
play the position they land on. -/
def is_valid_assignment (perm : List Player) : Bool :=
  (POSITIONS.zip perm).all fun pp =>
    decide (pp.1 ∈ pp.2.position_preference.get_all_positions)

/-- Function `generate_valid_position_assignments` (lines 287-315): try every
permutation of the five players against the fixed `POSITIONS` order and
keep, as an insertion-ordered dict built in `POSITIONS` order, each
permutation whose positional pairings all satisfy role membership.
Returns the empty list when no permutation is valid. -/
def generate_valid_position_assignments (team_players : List Player) : List PyDict :=
  (team_players.permutations.filter is_valid_assignment).map
    fun perm => POSITIONS.zip perm

-- Team scoring and balance metrics (generator.py lines 774-901)

/-- Record `TeamComposition` (lines 774-781). -/
structure TeamComposition where
  red_team : PyDict
  blue_team : PyDict
  red_score : PyR
  blue_score : PyR
  t_value : PyR
  l_value : PyR

/-- Function `calculate_t_value` (lines 812-814): `abs(red_score - blue_score)`. -/
def calculate_t_value (red_score blue_score : PyR) : PyR :=
  PyR.abs (PyR.sub red_score blue_score)

/-- The loop of `calculate_l_value` (lines 820-831): for each position the
per-position scores call `rank_points()` with no argument, which raises
`TypeError` (the property is shadowed, see `Player.rank_points_noarg`). -/
noncomputable def squared_lane_diffs (red_team blue_team : PyDict) : Except PyErr (List PyF) :=
  POSITIONS.foldlM (fun acc position => do
    let red_player ← pyDictGet red_team position
    let blue_player ← pyDictGet blue_team position
    let rrp ← red_player.rank_points_noarg
    let red_pos_score := PyF.add (.fin rrp) (red_player.position_penalty position)
    let brp ← blue_player.rank_points_noarg
    let blue_pos_score := PyF.add (.fin brp) (blue_player.position_penalty position)
    let diff := PyF.sub red_pos_score blue_pos_score
    pure (acc ++ [PyF.sq diff])) ([] : List PyF)

/-- Function `calculate_l_value` (lines 816-835): RMS of the per-position standard
score differences; fails with `TypeError` as soon as the first position is
processed. -/
noncomputable def calculate_l_value (red_team blue_team : PyDict) : Except PyErr PyR := do
  let squared_diffs ← squared_lane_diffs red_team blue_team
  let mean_squared_diff ← PyF.divNat (PyF.sum squared_diffs) POSITIONS.length
  mathSqrt mean_squared_diff

/-- The per-position score used by `calculate_l_value_advanced` (lines
847-850): `rank_points(position) + position_penalty_advanced(position)`. -/
def lane_score_advanced (p : Player) (position : String) : Except PyErr PyF := do
  let rp ← p.rank_points position
  let pen ← p.position_penalty_advanced position
  pure (PyF.add (.fin rp) pen)

/-- The loop of `calculate_l_value_advanced` (lines 842-853). -/
def squared_lane_diffs_advanced (red_team blue_team : PyDict) : Except PyErr (List PyF) :=
  POSITIONS.foldlM (fun acc position => do
    let red_player ← pyDictGet red_team position
    let blue_player ← pyDictGet blue_team position
    let red_pos_score ← lane_score_advanced red_player position
    let blue_pos_score ← lane_score_advanced blue_player position
    let diff := PyF.sub red_pos_score blue_pos_score
    pure (acc ++ [PyF.sq diff])) ([] : List PyF)

/-- Function `calculate_l_value_advanced` (lines 838-857): root mean square over
the five positions of the difference of the per-position
advanced scores. -/
noncomputable def calculate_l_value_advanced (red_team blue_team : PyDict) : Except PyErr PyR := do
  let squared_diffs ← squared_lane_diffs_advanced red_team blue_team
  let mean_squared_diff ← PyF.divNat (PyF.sum squared_diffs) POSITIONS.length
  mathSqrt mean_squared_diff

/-- The per-player accumulation loop of `evaluate_team_composition`
(lines 863-871). -/
def team_total (position_assignments : PyDict) : Except PyErr PyF :=
  position_assignments.foldlM (fun total_score pp => do
    let rp ← pp.2.rank_points_noarg
    let total_score := PyF.add total_score (.fin rp)
    let total_score := PyF.add total_score (pp.2.position_penalty pp.1)
    let total_score := PyF.add total_score (.fin pp.2.order_points)
    pure total_score) (PyF.fin 0)

/-- Expression `sum(p.rank_points() for p in players)` (line 876). -/
def rank_sum_noarg (players : List Player) : Except PyErr ℚ :=
  players.foldlM (fun s p => do
    let rp ← p.rank_points_noarg
    pure (s + rp)) (0 : ℚ)

/-- Function `evaluate_team_composition` (lines 859-879), standard mode.  Every
loop iteration starts with the zero-argument call `player.rank_points()`,
which raises `TypeError`; with an empty dict the synergy sum raises the
same `TypeError` on the first player (and `ZeroDivisionError` when the
player list is empty as well).  The synergy weight multiplication by 1 is
elided. -/
noncomputable def evaluate_team_composition (players : List Player)
    (position_assignments : PyDict) : Except PyErr PyR := do
  let total_score ← team_total position_assignments
  let s ← rank_sum_noarg players
  let avg_rank ← pyDivQ s players.length
  let synergy ← pyPowHalf avg_rank
  pure (PyR.add total_score.toPyR synergy)

/-- After `for position, player in position_assignments.items()` the loop
variable `position` keeps the value of the last key iterated; the advanced
synergy expression `sum(p.rank_points(position) for p in players)` (line
898) reads that leaked variable.  `NameError` when the dict is empty and
the variable was never bound. -/
def pyLastKey (d : PyDict) : Except PyErr String :=
  match d.getLast? with
  | some pp => .ok pp.1
  | none => .error .nameError

/-- The per-player accumulation loop of `evaluate_team_composition_advanced`
(lines 885-893). -/
def team_total_advanced (position_assignments : PyDict) : Except PyErr PyF :=
  position_assignments.foldlM (fun total_score pp => do
    let rp ← pp.2.rank_points pp.1
    let total_score := PyF.add total_score (.fin rp)
    let pen ← pp.2.position_penalty_advanced pp.1
    let total_score := PyF.add total_score pen
    let total_score := PyF.add total_score (.fin pp.2.order_points)
    pure total_score) (PyF.fin 0)

/-- Expression `sum(p.rank_points(position) for p in players)` (line 898), where
`position` is the leaked loop variable. -/
def rank_sum_at (players : List Player) (position : String) : Except PyErr ℚ :=
  players.foldlM (fun s p => do
    let rp ← p.rank_points position
    pure (s + rp)) (0 : ℚ)

/-- Function `evaluate_team_composition_advanced` (lines 881-901): the per-player
sum uses the assigned position, but the synergy average is taken of every
rank points of each player at the leaked last-iterated `position` (see
`pyLastKey`).  The synergy weight multiplication by 1 is elided. -/
noncomputable def evaluate_team_composition_advanced (players : List Player)
    (position_assignments : PyDict) : Except PyErr PyR := do
  let total_score ← team_total_advanced position_assignments
  let position ← pyLastKey position_assignments
  let s ← rank_sum_at players position
  let avg_rank ← pyDivQ s players.length
  let synergy ← pyPowHalf avg_rank
  pure (PyR.add total_score.toPyR synergy)

-- Composition search (generator.py lines 904-989)

/-- Python `itertools.combinations(l, k)`, embedded as `List.sublistsLen`: the
same family of k-element subsequences.  The Python lexicographic emission
order is not preserved; none of the theorems below depend on the
enumeration order. -/
def combinations (l : List α) (k : ℕ) : List (List α) :=
  List.sublistsLen k l

/-- The sort key of the final ranking: `x.t_value + x.l_value`. -/
def comp_key (c : TeamComposition) : PyR :=
  PyR.add c.t_value c.l_value

/-- Call `sorted(valid_combinations, key=lambda x: (x.t_value + x.l_value))`:
a stable sort that places `x` before `y` when the key of `y` is not
strictly below the key of `x` (Python sorts compare with `<`). -/
noncomputable def sortByKey (l : List TeamComposition) : List TeamComposition :=
  @List.insertionSort TeamComposition
    (fun x y => ¬ PyR.lt (comp_key y) (comp_key x))
    (fun _ _ => Classical.dec _) l

/-- Function `generate_team_combinations` (lines 904-945), standard mode: choose 10
of the pool, split off 5 as the red side (the blue side is every member of
the subset not equal to a red member — note that Python `not in` uses
structural dataclass equality), enumerate the assignments of both sides, score
every pair, and return the first `num_combinations` after the stable sort
by T+L. -/
noncomputable def generate_team_combinations (players : List Player)
    (num_combinations : ℕ) : Except PyErr (List TeamComposition) := do
  let valid_combinations ← (combinations players 10).foldlM (fun valid_combinations team_players =>
    (combinations team_players 5).foldlM (fun valid_combinations red_team_players => do
      let blue_team_players := team_players.filter fun p => decide (p ∉ red_team_players)
      let red_assignments := generate_valid_position_assignments red_team_players
      let blue_assignments := generate_valid_position_assignments blue_team_players
      red_assignments.foldlM (fun valid_combinations red_pos =>
        blue_assignments.foldlM (fun valid_combinations blue_pos => do
          let red_score ← evaluate_team_composition red_team_players red_pos
          let blue_score ← evaluate_team_composition blue_team_players blue_pos
          let t_value := calculate_t_value red_score blue_score
          let l_value ← calculate_l_value red_pos blue_pos
          pure (valid_combinations ++
            [⟨red_pos, blue_pos, red_score, blue_score, t_value, l_value⟩]))
          valid_combinations)
        valid_combinations)
      valid_combinations)
    ([] : List TeamComposition)
  pure ((sortByKey valid_combinations).take num_combinations)

/-- Function `generate_team_combinations_advanced` (lines 948-989): identical
search skeleton, with the advanced scorer and advanced L metric. -/
noncomputable def generate_team_combinations_advanced (players : List Player)
    (num_combinations : ℕ) : Except PyErr (List TeamComposition) := do
  let valid_combinations ← (combinations players 10).foldlM (fun valid_combinations team_players =>
    (combinations team_players 5).foldlM (fun valid_combinations red_team_players => do
      let blue_team_players := team_players.filter fun p => decide (p ∉ red_team_players)
      let red_assignments := generate_valid_position_assignments red_team_players
      let blue_assignments := generate_valid_position_assignments blue_team_players
      red_assignments.foldlM (fun valid_combinations red_pos =>
        blue_assignments.foldlM (fun valid_combinations blue_pos => do
          let red_score ← evaluate_team_composition_advanced red_team_players red_pos
          let blue_score ← evaluate_team_composition_advanced blue_team_players blue_pos
          let t_value := calculate_t_value red_score blue_score
          let l_value ← calculate_l_value_advanced red_pos blue_pos
          pure (valid_combinations ++
            [⟨red_pos, blue_pos, red_score, blue_score, t_value, l_value⟩]))
          valid_combinations)
        valid_combinations)
      valid_combinations)
    ([] : List TeamComposition)
  pure ((sortByKey valid_combinations).take num_combinations)

-- Concrete rosters used by the theorems below

/-- Five challenger players on the "others" server, each with a single
distinct main role and no secondary or tertiary roles. -/
def demo_top : Player := ⟨"demo top", .challenger, ⟨["top"], [], []⟩, "others", false⟩

def demo_jgl : Player := ⟨"demo jgl", .challenger, ⟨["jgl"], [], []⟩, "others", false⟩

def demo_mid : Player := ⟨"demo mid", .challenger, ⟨["mid"], [], []⟩, "others", false⟩

def demo_bot : Player := ⟨"demo bot", .challenger, ⟨["bot"], [], []⟩, "others", false⟩

def demo_sup : Player := ⟨"demo sup", .challenger, ⟨["sup"], [], []⟩, "others", false⟩

def demoPlayers : List Player := [demo_top, demo_jgl, demo_mid, demo_bot, demo_sup]

/-- The only valid assignment for `demoPlayers`: everyone on their main. -/
def demoAssign : PyDict := POSITIONS.zip demoPlayers

/-- A preference making a player eligible for all five positions. -/
def flexPref : PositionPreference := ⟨["top", "jgl", "mid", "bot", "sup"], [], []⟩

/-- Five distinct, fully flexible gold players. -/
def flexTeam : List Player :=
  [⟨"f0", .gold, flexPref, "others", false⟩,
   ⟨"f1", .gold, flexPref, "others", false⟩,
   ⟨"f2", .gold, flexPref, "others", false⟩,
   ⟨"f3", .gold, flexPref, "others", false⟩,
   ⟨"f4", .gold, flexPref, "others", false⟩]

def flexAssign : PyDict := POSITIONS.zip flexTeam

/-- Ten distinct, fully flexible gold players. -/
def pool10 : List Player :=
  [⟨"a0", .gold, flexPref, "others", false⟩,
   ⟨"a1", .gold, flexPref, "others", false⟩,
   ⟨"a2", .gold, flexPref, "others", false⟩,
   ⟨"a3", .gold, flexPref, "others", false⟩,
   ⟨"a4", .gold, flexPref, "others", false⟩,
   ⟨"a5", .gold, flexPref, "others", false⟩,
   ⟨"a6", .gold, flexPref, "others", false⟩,
   ⟨"a7", .gold, flexPref, "others", false⟩,
   ⟨"a8", .gold, flexPref, "others", false⟩,
   ⟨"a9", .gold, flexPref, "others", false⟩]

def pool9 : List Player := pool10.take 9

-- Common evaluation lemmas

lemma pyLower_others : pyLower "others" = "others" := by decide

lemma combinations_eq_nil {α : Type} {l : List α} {k : ℕ} (h : l.length < k) :
    combinations l k = [] :=
  List.sublistsLen_of_length_lt h

lemma sortByKey_nil : sortByKey [] = [] := rfl

lemma team_total_advanced_demo : team_total_advanced demoAssign = .ok (.fin (5967/25)) := by
  simp +decide [team_total_advanced, demoAssign, demoPlayers, POSITIONS, List.foldlM,
    demo_top, demo_jgl, demo_mid, demo_bot, demo_sup,
    Player.rank_points, Player.position_penalty_advanced, Player.order_points,
    Player.server_bonus, pyLower_others, HIGH_SKILL_SERVERS, pyListGet, pyDictGet,
    ranksPointDict, List.lookup, PyF.add, PositionPreference.get_position_tier,
    Bind.bind, Except.bind, Functor.map, Except.map, Pure.pure, Except.pure]
  norm_num

lemma rank_sum_at_demo_sup : rank_sum_at demoPlayers "sup" = .ok 43 := by
  simp +decide [rank_sum_at, demoPlayers, List.foldlM,
    demo_top, demo_jgl, demo_mid, demo_bot, demo_sup,
    Player.rank_points, Player.server_bonus, pyLower_others, HIGH_SKILL_SERVERS,
    pyListGet, pyDictGet, ranksPointDict, List.lookup,
    PositionPreference.get_position_tier,
    Bind.bind, Except.bind, Functor.map, Except.map, Pure.pure, Except.pure]

-- Claim C1

/-- C1 (counterexample): on a pool of nine players the composition search
does not fail — both modes return the empty result list. -/
theorem c1_counterexample :
    generate_team_combinations pool9 5 = .ok [] ∧
    generate_team_combinations_advanced pool9 5 = .ok [] :=
  ⟨rfl, rfl⟩

/-- C1 (amended): the search functions perform no pool-size check at all —
for every pool of fewer than ten candidates and every requested count, in
either mode, the search returns the empty list instead of failing; the
insufficient-players warning of the spec lives only in the GUI caller. -/
theorem c1_below_ten_returns_empty (players : List Player) (num_combinations : ℕ)
    (h : players.length < 10) :
    generate_team_combinations players num_combinations = .ok [] ∧
    generate_team_combinations_advanced players num_combinations = .ok [] := by
  have hc : combinations players 10 = [] := combinations_eq_nil h
  constructor
  · simp [generate_team_combinations, hc, sortByKey_nil, List.foldlM,
      Bind.bind, Except.bind, Pure.pure, Except.pure]
  · simp [generate_team_combinations_advanced, hc, sortByKey_nil, List.foldlM,
      Bind.bind, Except.bind, Pure.pure, Except.pure]

/-- C1 (witness): the amended statement applied to a concrete four-player
pool. -/
theorem c1_witness :
    generate_team_combinations (pool10.take 4) 7 = .ok [] ∧
    generate_team_combinations_advanced (pool10.take 4) 7 = .ok [] :=
  c1_below_ten_returns_empty (pool10.take 4) 7 (by decide)

-- Claim C2

/-- C2: standard-mode side scoring never computes the claimed sum — on the
demo team (a valid five-player assignment) it raises `TypeError`, because
the zero-argument `rank_points` property is shadowed by the one-argument
method of the same name. -/
theorem c2_standard_score_raises :
    evaluate_team_composition demoPlayers demoAssign = .error .typeError := rfl

-- Claim C3

/-- C3: on the demo team the advanced-mode score is the finite linear part
plus the square root of 43/5 — and 43/5 is the mean of the five
rank points of the players at the single leaked last-iterated position "sup" (where four
of the five players score 0), not the mean 234/5 of the own
assigned-role rank points of each player, which the claim asserts.  Standard mode (shown
on the flex team) raises `TypeError` before computing any synergy. -/
theorem c3_synergy_leaked_position :
    evaluate_team_composition_advanced demoPlayers demoAssign =
      .ok (.fin (((5967/25 : ℚ) : ℝ) + Real.sqrt ((43/5 : ℚ) : ℝ))) ∧
    pyLastKey demoAssign = .ok "sup" ∧
    rank_sum_at demoPlayers "sup" = .ok 43 ∧
    (43 : ℚ)/5 ≠ (46 + 51 + 50 + 44 + 43)/5 := by
  refine ⟨?_, rfl, rank_sum_at_demo_sup, by norm_num⟩
  simp only [evaluate_team_composition_advanced, team_total_advanced_demo,
    show pyLastKey demoAssign = Except.ok "sup" from rfl, rank_sum_at_demo_sup,
    show demoPlayers.length = 5 from rfl, Bind.bind, Except.bind]
  norm_num [pyDivQ, pyPowHalf, PyF.toPyR, PyR.add, Pure.pure, Except.pure]

-- Claim C4

/-- C4: with a pool of ten distinct fully flexible players and
`top_n = 3`, the standard-mode composition search raises `TypeError`
(from the shadowed zero-argument `rank_points` property) instead of
returning the first three compositions of the stable T+L sort. -/
theorem c4_standard_search_raises :
    generate_team_combinations pool10 3 = .error .typeError := rfl

-- Claim C5

lemma zip_map_fst_snd_self : ∀ (l : List (String × Player)),
    (l.map Prod.fst).zip (l.map Prod.snd) = l
  | [] => rfl
  | _ :: t => by simp [zip_map_fst_snd_self t]

/-- C5: for a five-player team, the enumerator returns exactly the
role-complete assignments — the dicts whose key column is the five fixed
roles, whose player column is a permutation of the team (each of the five
players exactly once), and in which every player can play their assigned
role; when everyone can play everything there are exactly 120 of them
(all bijections), and when no permutation is valid the result is the
empty list, not an error. -/
theorem c5_enumerator_spec (team_players : List Player) (hlen : team_players.length = 5) :
    (∀ a : PyDict, a ∈ generate_valid_position_assignments team_players ↔
      (a.map Prod.fst = POSITIONS ∧ List.Perm (a.map Prod.snd) team_players ∧
        ∀ pp ∈ a, pp.1 ∈ pp.2.position_preference.get_all_positions)) ∧
    ((∀ p ∈ team_players, ∀ pos ∈ POSITIONS,
        pos ∈ p.position_preference.get_all_positions) →
      (generate_valid_position_assignments team_players).length = 120) ∧
    ((∀ perm ∈ team_players.permutations, is_valid_assignment perm = false) →
      generate_valid_position_assignments team_players = []) := by
  have hPlen : POSITIONS.length = 5 := rfl
  refine ⟨?_, ?_, ?_⟩
  · intro a
    constructor
    · intro ha
      rcases List.mem_map.1 ha with ⟨perm, hperm, rfl⟩
      rcases List.mem_filter.1 hperm with ⟨hp, hv⟩
      have hpt : List.Perm perm team_players := List.mem_permutations.1 hp
      have hplen : perm.length = 5 := by rw [hpt.length_eq, hlen]
      have h2 : (POSITIONS.zip perm).map Prod.snd = perm :=
        List.map_snd_zip _ _ (by rw [hplen]; decide)
      refine ⟨List.map_fst_zip _ _ (by rw [hplen]; decide), ?_, ?_⟩
      · rw [h2]; exact hpt
      · intro pp hpp
        exact of_decide_eq_true (List.all_eq_true.1 hv pp hpp)
    · rintro ⟨hfst, hperm, hmem⟩
      have hzip : POSITIONS.zip (a.map Prod.snd) = a := by
        rw [← hfst]; exact zip_map_fst_snd_self a
      refine List.mem_map.2 ⟨a.map Prod.snd,
        List.mem_filter.2 ⟨List.mem_permutations.2 hperm, ?_⟩, hzip⟩
      apply List.all_eq_true.2
      intro pp hpp
      rw [hzip] at hpp
      exact decide_eq_true (hmem pp hpp)
  · intro hflex
    have hfe : team_players.permutations.filter is_valid_assignment =
        team_players.permutations := by
      apply List.filter_eq_self.2
      intro perm hp
      apply List.all_eq_true.2
      intro pp hpp
      obtain ⟨pos, pl⟩ := pp
      have hmz := List.of_mem_zip hpp
      have hpl : pl ∈ team_players := ((List.mem_permutations.1 hp).mem_iff).1 hmz.2
      exact decide_eq_true (hflex pl hpl pos hmz.1)
    rw [generate_valid_position_assignments, List.length_map, hfe,
      List.length_permutations, hlen]
    rfl
  · intro hnone
    rw [generate_valid_position_assignments]
    have : team_players.permutations.filter is_valid_assignment = [] := by
      apply List.filter_eq_nil_iff.2
      intro perm hp
      simp [hnone perm hp]
    rw [this]
    rfl

/-- C5 (witness): the fully flexible five-player team has exactly 120
valid assignments. -/
theorem c5_witness : (generate_valid_position_assignments flexTeam).length = 120 :=
  (c5_enumerator_spec flexTeam rfl).2.1 (by decide)

-- Claim C6

lemma five_sq_sum_eq_zero (a b c d e : ℚ) :
    a^2 + b^2 + c^2 + d^2 + e^2 = 0 ↔ a = 0 ∧ b = 0 ∧ c = 0 ∧ d = 0 ∧ e = 0 := by
  constructor
  · intro h
    refine ⟨?_, ?_, ?_, ?_, ?_⟩ <;>
      nlinarith [sq_nonneg a, sq_nonneg b, sq_nonneg c, sq_nonneg d, sq_nonneg e]
  · rintro ⟨ha, hb, hc, hd, he⟩
    rw [ha, hb, hc, hd, he]; ring

lemma squared_lane_diffs_advanced_eval
    (ra rb rc rd re ba bb bc bd be : Player) (qa qb qc qd qe pa pb pc pd pe : ℚ)
    (h1 : lane_score_advanced ra "top" = .ok (.fin qa))
    (h2 : lane_score_advanced rb "jgl" = .ok (.fin qb))
    (h3 : lane_score_advanced rc "mid" = .ok (.fin qc))
    (h4 : lane_score_advanced rd "bot" = .ok (.fin qd))
    (h5 : lane_score_advanced re "sup" = .ok (.fin qe))
    (h6 : lane_score_advanced ba "top" = .ok (.fin pa))
    (h7 : lane_score_advanced bb "jgl" = .ok (.fin pb))
    (h8 : lane_score_advanced bc "mid" = .ok (.fin pc))
    (h9 : lane_score_advanced bd "bot" = .ok (.fin pd))
    (h10 : lane_score_advanced be "sup" = .ok (.fin pe)) :
    squared_lane_diffs_advanced (POSITIONS.zip [ra, rb, rc, rd, re])
        (POSITIONS.zip [ba, bb, bc, bd, be]) =
      .ok [.fin ((qa - pa)^2), .fin ((qb - pb)^2), .fin ((qc - pc)^2),
        .fin ((qd - pd)^2), .fin ((qe - pe)^2)] := by
  simp +decide [squared_lane_diffs_advanced, POSITIONS, List.foldlM, pyDictGet,
    List.lookup, List.zip, List.zipWith, h1, h2, h3, h4, h5, h6, h7, h8, h9, h10,
    Bind.bind, Except.bind, Pure.pure, Except.pure, PyF.sub, PyF.sq]

/-- C6: the T metric on finite side scores is the absolute difference,
which is nonnegative and zero exactly when the aggregate scores agree;
the standard L metric raises `TypeError` on every pair of assignments
(zero-argument `rank_points` call, shadowed property) instead of being a
nonnegative RMS; the advanced L metric on two five-role assignments with
finite per-role scores is the RMS of the per-role differences, which is
nonnegative and zero exactly when the five per-role scores agree. -/
theorem c6_balance_metrics :
    (∀ r b : ℝ, calculate_t_value (.fin r) (.fin b) = .fin |r - b| ∧
      0 ≤ |r - b| ∧ (|r - b| = 0 ↔ r = b)) ∧
    calculate_l_value demoAssign demoAssign = .error .typeError ∧
    (∀ ra rb rc rd re ba bb bc bd be : Player, ∀ qa qb qc qd qe pa pb pc pd pe : ℚ,
      lane_score_advanced ra "top" = .ok (.fin qa) →
      lane_score_advanced rb "jgl" = .ok (.fin qb) →
      lane_score_advanced rc "mid" = .ok (.fin qc) →
      lane_score_advanced rd "bot" = .ok (.fin qd) →
      lane_score_advanced re "sup" = .ok (.fin qe) →
      lane_score_advanced ba "top" = .ok (.fin pa) →
      lane_score_advanced bb "jgl" = .ok (.fin pb) →
      lane_score_advanced bc "mid" = .ok (.fin pc) →
      lane_score_advanced bd "bot" = .ok (.fin pd) →
      lane_score_advanced be "sup" = .ok (.fin pe) →
      calculate_l_value_advanced (POSITIONS.zip [ra, rb, rc, rd, re])
          (POSITIONS.zip [ba, bb, bc, bd, be]) =
        .ok (.fin (Real.sqrt ((((qa - pa)^2 + (qb - pb)^2 + (qc - pc)^2 +
          (qd - pd)^2 + (qe - pe)^2)/5 : ℚ) : ℝ))) ∧
      0 ≤ Real.sqrt ((((qa - pa)^2 + (qb - pb)^2 + (qc - pc)^2 +
          (qd - pd)^2 + (qe - pe)^2)/5 : ℚ) : ℝ) ∧
      (Real.sqrt ((((qa - pa)^2 + (qb - pb)^2 + (qc - pc)^2 +
          (qd - pd)^2 + (qe - pe)^2)/5 : ℚ) : ℝ) = 0 ↔
        (qa = pa ∧ qb = pb ∧ qc = pc ∧ qd = pd ∧ qe = pe))) := by
  refine ⟨?_, rfl, ?_⟩
  · intro r b
    exact ⟨rfl, abs_nonneg _, by rw [abs_eq_zero, sub_eq_zero]⟩
  · intro ra rb rc rd re ba bb bc bd be qa qb qc qd qe pa pb pc pd pe
      h1 h2 h3 h4 h5 h6 h7 h8 h9 h10
    have hsd := squared_lane_diffs_advanced_eval ra rb rc rd re ba bb bc bd be
      qa qb qc qd qe pa pb pc pd pe h1 h2 h3 h4 h5 h6 h7 h8 h9 h10
    have hsum : PyF.sum [.fin ((qa - pa)^2), .fin ((qb - pb)^2), .fin ((qc - pc)^2),
        .fin ((qd - pd)^2), .fin ((qe - pe)^2)] =
        .fin ((qa - pa)^2 + (qb - pb)^2 + (qc - pc)^2 + (qd - pd)^2 + (qe - pe)^2) := by
      simp only [PyF.sum, List.foldl, PyF.add]
      ring_nf
    refine ⟨?_, Real.sqrt_nonneg _, ?_⟩
    · have hpos : (0:ℚ) ≤ ((qa - pa)^2 + (qb - pb)^2 + (qc - pc)^2 +
          (qd - pd)^2 + (qe - pe)^2)/5 := by positivity
      simp only [calculate_l_value_advanced, hsd, Bind.bind, Except.bind, hsum,
        show POSITIONS.length = 5 from rfl, PyF.divNat, Nat.cast_ofNat, mathSqrt,
        hpos, if_true]
      rw [if_neg (by decide : ¬ (5 : ℕ) = 0)]
      simp [hpos]
    · rw [Real.sqrt_eq_zero (by positivity), Rat.cast_eq_zero, div_eq_zero_iff]
      norm_num [five_sq_sum_eq_zero, sub_eq_zero]

lemma lane_demo_top : lane_score_advanced demo_top "top" = .ok (.fin (1173/25)) := by
  simp +decide [lane_score_advanced, demo_top, Player.rank_points,
    Player.position_penalty_advanced, PositionPreference.get_position_tier,
    Player.server_bonus, pyLower_others, HIGH_SKILL_SERVERS, pyListGet, pyDictGet,
    ranksPointDict, List.lookup, PyF.add, Bind.bind, Except.bind, Functor.map,
    Except.map, Pure.pure, Except.pure]
  norm_num

lemma lane_demo_jgl : lane_score_advanced demo_jgl "jgl" = .ok (.fin (2601/50)) := by
  simp +decide [lane_score_advanced, demo_jgl, Player.rank_points,
    Player.position_penalty_advanced, PositionPreference.get_position_tier,
    Player.server_bonus, pyLower_others, HIGH_SKILL_SERVERS, pyListGet, pyDictGet,
    ranksPointDict, List.lookup, PyF.add, Bind.bind, Except.bind, Functor.map,
    Except.map, Pure.pure, Except.pure]
  norm_num

lemma lane_demo_mid : lane_score_advanced demo_mid "mid" = .ok (.fin 51) := by
  simp +decide [lane_score_advanced, demo_mid, Player.rank_points,
    Player.position_penalty_advanced, PositionPreference.get_position_tier,
    Player.server_bonus, pyLower_others, HIGH_SKILL_SERVERS, pyListGet, pyDictGet,
    ranksPointDict, List.lookup, PyF.add, Bind.bind, Except.bind, Functor.map,
    Except.map, Pure.pure, Except.pure]
  norm_num

lemma lane_demo_bot : lane_score_advanced demo_bot "bot" = .ok (.fin (1122/25)) := by
  simp +decide [lane_score_advanced, demo_bot, Player.rank_points,
    Player.position_penalty_advanced, PositionPreference.get_position_tier,
    Player.server_bonus, pyLower_others, HIGH_SKILL_SERVERS, pyListGet, pyDictGet,
    ranksPointDict, List.lookup, PyF.add, Bind.bind, Except.bind, Functor.map,
    Except.map, Pure.pure, Except.pure]
  norm_num

lemma lane_demo_sup : lane_score_advanced demo_sup "sup" = .ok (.fin (2193/50)) := by
  simp +decide [lane_score_advanced, demo_sup, Player.rank_points,
    Player.position_penalty_advanced, PositionPreference.get_position_tier,
    Player.server_bonus, pyLower_others, HIGH_SKILL_SERVERS, pyListGet, pyDictGet,
    ranksPointDict, List.lookup, PyF.add, Bind.bind, Except.bind, Functor.map,
    Except.map, Pure.pure, Except.pure]
  norm_num

/-- C6 (witness): the advanced L metric of the demo assignment against
itself is the square root of the mean of five zero squared differences. -/
theorem c6_witness :
    calculate_l_value_advanced demoAssign demoAssign =
      .ok (.fin (Real.sqrt ((((1173/25 - 1173/25 : ℚ)^2 + (2601/50 - 2601/50 : ℚ)^2 +
        (51 - 51 : ℚ)^2 + (1122/25 - 1122/25 : ℚ)^2 + (2193/50 - 2193/50 : ℚ)^2)/5 : ℚ) : ℝ))) :=
  (c6_balance_metrics.2.2 demo_top demo_jgl demo_mid demo_bot demo_sup
    demo_top demo_jgl demo_mid demo_bot demo_sup
    (1173/25) (2601/50) 51 (1122/25) (2193/50)
    (1173/25) (2601/50) 51 (1122/25) (2193/50)
    lane_demo_top lane_demo_jgl lane_demo_mid lane_demo_bot lane_demo_sup
    lane_demo_top lane_demo_jgl lane_demo_mid lane_demo_bot lane_demo_sup).1

-- Claims C7 and C9

lemma length_dedup_eq_iff {α : Type} [DecidableEq α] (l : List α) :
    l.length = l.dedup.length ↔ l.Nodup := by
  constructor
  · intro h
    have hsub := List.dedup_sublist l
    have heq := hsub.eq_of_length h.symm
    rw [← heq]
    exact l.nodup_dedup
  · intro h
    rw [List.dedup_eq_self.2 h]

lemma post_init_ok_nodup {pref : PositionPreference} (h : pref.post_init = .ok ()) :
    (pref.main_roles ++ pref.secondary_roles ++ pref.tertiary_roles).Nodup := by
  unfold PositionPreference.post_init at h
  by_cases hdup : (pref.main_roles ++ pref.secondary_roles ++ pref.tertiary_roles).length ≠
      (pref.main_roles ++ pref.secondary_roles ++ pref.tertiary_roles).dedup.length
  · rw [if_pos hdup] at h
    exact absurd h (by simp)
  · exact (length_dedup_eq_iff _).1 (not_ne_iff.1 hdup)

lemma post_init_ok_valid {pref : PositionPreference} (h : pref.post_init = .ok ()) :
    ∀ role ∈ pref.main_roles ++ pref.secondary_roles ++ pref.tertiary_roles,
      role ∈ POSITIONS := by
  unfold PositionPreference.post_init at h
  intro role hrole
  by_cases hdup : (pref.main_roles ++ pref.secondary_roles ++ pref.tertiary_roles).length ≠
      (pref.main_roles ++ pref.secondary_roles ++ pref.tertiary_roles).dedup.length
  · rw [if_pos hdup] at h
    exact absurd h (by simp)
  · rw [if_neg hdup] at h
    by_contra hinv
    have hsome : ((pref.main_roles ++ pref.secondary_roles ++
        pref.tertiary_roles).find? fun pos => decide (pos ∉ POSITIONS)).isSome :=
      List.find?_isSome.2 ⟨role, hrole, decide_eq_true hinv⟩
    obtain ⟨x, hx⟩ := Option.isSome_iff_exists.1 hsome
    rw [hx] at h
    exact Except.noConfusion h

/-- C7: building a role preference fails with a `ValueError` when a role
occurs in two different tiers or a listed role is not one of the five
positions; when it succeeds, the three tiers are pairwise disjoint and the
tier lookup answers 1, 2, 3, or the sentinel -1 exactly according to which
tier contains the queried role. -/
theorem c7_validator_spec (pref : PositionPreference) :
    (((∃ role, (role ∈ pref.main_roles ∧ role ∈ pref.secondary_roles) ∨
        (role ∈ pref.main_roles ∧ role ∈ pref.tertiary_roles) ∨
        (role ∈ pref.secondary_roles ∧ role ∈ pref.tertiary_roles)) ∨
      (∃ role ∈ pref.main_roles ++ pref.secondary_roles ++ pref.tertiary_roles,
        role ∉ POSITIONS)) →
      ∃ msg, pref.post_init = .error (.valueError msg)) ∧
    (pref.post_init = .ok () →
      ((∀ role, ¬(role ∈ pref.main_roles ∧ role ∈ pref.secondary_roles) ∧
        ¬(role ∈ pref.main_roles ∧ role ∈ pref.tertiary_roles) ∧
        ¬(role ∈ pref.secondary_roles ∧ role ∈ pref.tertiary_roles)) ∧
       (∀ role, (pref.get_position_tier role = 1 ↔ role ∈ pref.main_roles) ∧
         (pref.get_position_tier role = 2 ↔ role ∈ pref.secondary_roles) ∧
         (pref.get_position_tier role = 3 ↔ role ∈ pref.tertiary_roles) ∧
         (pref.get_position_tier role = -1 ↔
           (role ∉ pref.main_roles ∧ role ∉ pref.secondary_roles ∧
            role ∉ pref.tertiary_roles))))) := by
  constructor
  · intro hbad
    by_cases hdup : (pref.main_roles ++ pref.secondary_roles ++ pref.tertiary_roles).length ≠
        (pref.main_roles ++ pref.secondary_roles ++ pref.tertiary_roles).dedup.length
    · exact ⟨"A position cannot appear in multiple tiers",
        by unfold PositionPreference.post_init; rw [if_pos hdup]⟩
    · have hnodup := (length_dedup_eq_iff _).1 (not_ne_iff.1 hdup)
      obtain ⟨hms, ht, hdisj⟩ := List.nodup_append.1 hnodup
      obtain ⟨hm, hs, hdisj2⟩ := List.nodup_append.1 hms
      rcases hbad with ⟨role, hcase⟩ | ⟨role, hmem, hinv⟩
      · exfalso
        rcases hcase with ⟨h1, h2⟩ | ⟨h1, h2⟩ | ⟨h1, h2⟩
        · exact hdisj2 h1 h2
        · exact hdisj (List.mem_append_left _ h1) h2
        · exact hdisj (List.mem_append_right _ h1) h2
      · have hsome : ((pref.main_roles ++ pref.secondary_roles ++
            pref.tertiary_roles).find? fun pos => decide (pos ∉ POSITIONS)).isSome :=
          List.find?_isSome.2 ⟨role, hmem, decide_eq_true hinv⟩
        obtain ⟨x, hx⟩ := Option.isSome_iff_exists.1 hsome
        refine ⟨"Invalid position: " ++ x, ?_⟩
        unfold PositionPreference.post_init
        rw [if_neg hdup, hx]
  · intro hok
    have hnodup := post_init_ok_nodup hok
    obtain ⟨hms, ht, hdisj⟩ := List.nodup_append.1 hnodup
    obtain ⟨hm, hs, hdisj2⟩ := List.nodup_append.1 hms
    constructor
    · intro role
      refine ⟨?_, ?_, ?_⟩
      · rintro ⟨h1, h2⟩; exact hdisj2 h1 h2
      · rintro ⟨h1, h2⟩; exact hdisj (List.mem_append_left _ h1) h2
      · rintro ⟨h1, h2⟩; exact hdisj (List.mem_append_right _ h1) h2
    · intro role
      by_cases h1 : role ∈ pref.main_roles <;>
        by_cases h2 : role ∈ pref.secondary_roles <;>
        by_cases h3 : role ∈ pref.tertiary_roles <;>
        simp_all [PositionPreference.get_position_tier]
      · exact hdisj2 h1 h2
      · exact hdisj2 h1 h2
      · exact hdisj.1 h1 h3
      · exact hdisj.2 h2 h3

/-- C9: a role duplicated inside a single tier list (even with no role
shared between tiers and all roles valid) already makes the constructor
fail, because the duplicate check compares the concatenation of the three
lists with its set image. -/
theorem c9_intra_tier_duplicate (pref : PositionPreference)
    (h : ¬ pref.main_roles.Nodup ∨ ¬ pref.secondary_roles.Nodup ∨
      ¬ pref.tertiary_roles.Nodup) :
    ∃ msg, pref.post_init = .error (.valueError msg) := by
  have hnd : ¬ (pref.main_roles ++ pref.secondary_roles ++ pref.tertiary_roles).Nodup := by
    intro hall
    obtain ⟨hms, ht, _⟩ := List.nodup_append.1 hall
    obtain ⟨hm, hs, _⟩ := List.nodup_append.1 hms
    rcases h with h | h | h
    · exact h hm
    · exact h hs
    · exact h ht
  refine ⟨"A position cannot appear in multiple tiers", ?_⟩
  unfold PositionPreference.post_init
  rw [if_pos fun heq => hnd ((length_dedup_eq_iff _).1 heq)]

/-- C7 (witness): a role repeated across tiers is rejected, and on a valid
preference the tier lookup of a secondary role is 2. -/
theorem c7_witness :
    (∃ msg, PositionPreference.post_init ⟨["top"], ["top"], []⟩ =
      .error (.valueError msg)) ∧
    (PositionPreference.get_position_tier ⟨["top"], ["mid", "bot"], ["sup"]⟩ "mid" = 2 ↔
      "mid" ∈ (⟨["top"], ["mid", "bot"], ["sup"]⟩ : PositionPreference).secondary_roles) :=
  ⟨(c7_validator_spec ⟨["top"], ["top"], []⟩).1 (Or.inl ⟨"top", Or.inl ⟨by decide, by decide⟩⟩),
   (((c7_validator_spec ⟨["top"], ["mid", "bot"], ["sup"]⟩).2 rfl).2 "mid").2.1⟩

/-- C9 (witness): a doubled main role is rejected even though "top" is a
valid role and appears in no other tier. -/
theorem c9_witness :
    ∃ msg, PositionPreference.post_init ⟨["top", "top"], [], []⟩ =
      .error (.valueError msg) :=
  c9_intra_tier_duplicate ⟨["top", "top"], [], []⟩ (Or.inl (by decide))

-- Claims C8 and C10

lemma tier_cases (pref : PositionPreference) (position : String) :
    pref.get_position_tier position = 1 ∨ pref.get_position_tier position = 2 ∨
    pref.get_position_tier position = 3 ∨ pref.get_position_tier position = -1 := by
  unfold PositionPreference.get_position_tier
  split_ifs <;> simp

lemma tier_one_mem {pref : PositionPreference} {position : String}
    (h : pref.get_position_tier position = 1) : position ∈ pref.main_roles := by
  unfold PositionPreference.get_position_tier at h
  split_ifs at h with hA hB hC <;> first | assumption | exact absurd h (by decide)

lemma tier_two_mem {pref : PositionPreference} {position : String}
    (h : pref.get_position_tier position = 2) : position ∈ pref.secondary_roles := by
  unfold PositionPreference.get_position_tier at h
  split_ifs at h with hA hB hC <;> first | assumption | exact absurd h (by decide)

lemma tier_three_mem {pref : PositionPreference} {position : String}
    (h : pref.get_position_tier position = 3) : position ∈ pref.tertiary_roles := by
  unfold PositionPreference.get_position_tier at h
  split_ifs at h with hA hB hC <;> first | assumption | exact absurd h (by decide)

lemma lookup_isSome_of_mem_POSITIONS (r : Rank) (pos : String) (h : pos ∈ POSITIONS) :
    ((ranksPointDict r).lookup pos).isSome := by
  simp only [POSITIONS, List.mem_cons, List.not_mem_nil, or_false] at h
  rcases h with rfl | rfl | rfl | rfl | rfl <;> cases r <;> rfl

/-- The tier-representative role of an assigned position: the first role
listed in the tier that contains it (used to state C8; the source indexes
`main_roles[0]`, `secondary_roles[0]` or `tertiary_roles[0]`). -/
def tier_first_role (pref : PositionPreference) (position : String) : Option String :=
  if pref.get_position_tier position = 1 then pref.main_roles.head?
  else if pref.get_position_tier position = 2 then pref.secondary_roles.head?
  else if pref.get_position_tier position = 3 then pref.tertiary_roles.head?
  else none

/-- C8: for a validated candidate and an assigned role in one of their
tiers, the role-passed lookup returns the point-table entry of the first
role listed in that tier (not necessarily the assigned role) plus the
server bonus (1 for a high-skill server, else 0). -/
theorem c8_tier_representative (p : Player) (position : String)
    (hval : p.position_preference.post_init = .ok ())
    (ht : p.position_preference.get_position_tier position ≠ -1) :
    ∃ rep points, tier_first_role p.position_preference position = some rep ∧
      (ranksPointDict p.rank).lookup rep = some points ∧
      p.rank_points position = .ok (p.server_bonus + points) := by
  rcases tier_cases p.position_preference position with h1 | h2 | h3 | h4
  · have hmem := tier_one_mem h1
    obtain ⟨r, rs, hcons⟩ := List.exists_cons_of_ne_nil (List.ne_nil_of_mem hmem)
    have hrP : r ∈ POSITIONS :=
      post_init_ok_valid hval r
        (List.mem_append_left _ (List.mem_append_left _
          (by rw [hcons]; exact List.mem_cons_self r rs)))
    obtain ⟨pts, hpts⟩ :=
      Option.isSome_iff_exists.1 (lookup_isSome_of_mem_POSITIONS p.rank r hrP)
    refine ⟨r, pts, ?_, hpts, ?_⟩
    · simp [tier_first_role, h1, hcons]
    · simp [Player.rank_points, h1, hcons, pyListGet, pyDictGet, hpts, List.get?,
        Bind.bind, Except.bind, Pure.pure, Except.pure]
  · have hmem := tier_two_mem h2
    obtain ⟨r, rs, hcons⟩ := List.exists_cons_of_ne_nil (List.ne_nil_of_mem hmem)
    have hrP : r ∈ POSITIONS :=
      post_init_ok_valid hval r
        (List.mem_append_left _ (List.mem_append_right _
          (by rw [hcons]; exact List.mem_cons_self r rs)))
    obtain ⟨pts, hpts⟩ :=
      Option.isSome_iff_exists.1 (lookup_isSome_of_mem_POSITIONS p.rank r hrP)
    refine ⟨r, pts, ?_, hpts, ?_⟩
    · simp [tier_first_role, h2, hcons]
    · simp [Player.rank_points, h2, hcons, pyListGet, pyDictGet, hpts, List.get?,
        Bind.bind, Except.bind, Pure.pure, Except.pure]
  · have hmem := tier_three_mem h3
    obtain ⟨r, rs, hcons⟩ := List.exists_cons_of_ne_nil (List.ne_nil_of_mem hmem)
    have hrP : r ∈ POSITIONS :=
      post_init_ok_valid hval r
        (List.mem_append_right _ (by rw [hcons]; exact List.mem_cons_self r rs))
    obtain ⟨pts, hpts⟩ :=
      Option.isSome_iff_exists.1 (lookup_isSome_of_mem_POSITIONS p.rank r hrP)
    refine ⟨r, pts, ?_, hpts, ?_⟩
    · simp [tier_first_role, h3, hcons]
    · simp [Player.rank_points, h3, hcons, pyListGet, pyDictGet, hpts, List.get?,
        Bind.bind, Except.bind, Pure.pure, Except.pure]
  · exact absurd h4 ht

/-- A platinum shot-caller on a high-skill server whose secondary tier
lists "mid" before "top". -/
def w8 : Player := ⟨"w8", .platinum, ⟨["jgl"], ["mid", "top"], []⟩, "korea", true⟩

/-- C8 (witness): assigning `w8` the role "top" (their second-listed
secondary role) reads the point table at the tier representative "mid". -/
theorem c8_witness :
    ∃ rep points, tier_first_role w8.position_preference "top" = some rep ∧
      (ranksPointDict w8.rank).lookup rep = some points ∧
      w8.rank_points "top" = .ok (w8.server_bonus + points) :=
  c8_tier_representative w8 "top" rfl (by decide)

/-- C10: for a role in none of the tiers of a candidate, the role-passed
lookup is total: it returns exactly the server bonus (the point table is
not consulted and nothing is raised), while the two tier-adjustment
functions return negative infinity. -/
theorem c10_none_tier_total (p : Player) (position : String)
    (h : p.position_preference.get_position_tier position = -1) :
    p.rank_points position = .ok p.server_bonus ∧
    p.position_penalty position = .ninf ∧
    p.position_penalty_advanced position = .ok .ninf := by
  refine ⟨?_, ?_, ?_⟩
  · simp [Player.rank_points, h, Pure.pure, Except.pure]
  · simp [Player.position_penalty, h]
  · simp [Player.position_penalty_advanced, h, Pure.pure, Except.pure]

/-- C10 (witness): the demo top-laner assigned "mid" (not in any tier)
scores exactly their server bonus, and both penalty functions give -inf. -/
theorem c10_witness :
    demo_top.rank_points "mid" = .ok demo_top.server_bonus ∧
    demo_top.position_penalty "mid" = .ninf ∧
    demo_top.position_penalty_advanced "mid" = .ok .ninf :=
  c10_none_tier_total demo_top "mid" (by decide)
